import Mathlib

/-!
Verification development for the things.py read-only task-query library
(src/things/database.py and src/things/api.py).

The SQL layer is embedded shallowly: the WHERE fragments that the query
builder renders as strings are interpreted as predicates over explicit
row structures, and the joined SELECT of make_tasks_sql_query becomes a
filter + stable sort over the task table with the joins resolved by
uuid lookup.  Python exceptions become an explicit error type carried in
Except; Python's truthiness tests, keyword-argument dispatch and stable
list.sort are modelled faithfully where the claims depend on them.
-/

/-- Python exception outcomes the library can produce.  `invalidArg`,
`noSuchUuid` and `invalidLiteral` are all ValueError in Python
(the spec's InvalidArgument / NotFound); the others are TypeError,
IndexError and RecursionError. -/
inductive PyErr where
  /-- ValueError raised by `validate` / `validate_offset`: the parameter
  name and the offending argument (rendered as text). -/
  | invalidArg (parameter : String) (argument : String)
  /-- ValueError "No such task uuid found" raised by the identifier
  existence check of `get_tasks`. -/
  | noSuchUuid (uuid : String)
  /-- ValueError raised by Python's `int()` on a non-numeric literal
  (reached from `make_date_filter`). -/
  | invalidLiteral (literal : String)
  /-- TypeError: a function was called with a keyword argument that is
  not in its parameter list. -/
  | unexpectedKeyword (func : String) (keyword : String)
  /-- TypeError: `list.sort` compared None with str. -/
  | noneComparison
  /-- IndexError from `result[0]` on an empty list. -/
  | indexError
  /-- RecursionError: the recursion fuel of the model ran out (Python
  overflows the stack on a cyclic project hierarchy). -/
  | recursionError
  deriving DecidableEq, Repr

/-- A value passed for one of the tri-state filter parameters of
`get_tasks` (area, project, heading, tag, start_date, deadline, and the
uuid that reaches `make_filter`): Python None, a bool sentinel, or a
concrete string. -/
inductive FilterVal where
  | fnone
  | fbool (b : Bool)
  | fstr (s : String)
  deriving DecidableEq, Repr

/-- A row of the TMTask table, restricted to the columns the queries of
database.py read.  `taskType` is the `type` column (0 to-do, 1 project,
2 heading), `status` is 0 incomplete / 2 canceled / 3 completed,
`start` is 0 Inbox / 1 Anytime / 2 Someday, `idx` is the quoted
"index" column. -/
structure TaskRow where
  uuid : String
  taskType : Nat
  status : Nat
  trashed : Nat
  title : String
  notes : String
  start : Nat
  startDate : Option Int
  dueDate : Option Int
  stopDate : Option Int
  creationDate : Option Int
  userModificationDate : Option Int
  area : Option String
  project : Option String
  actionGroup : Option String
  recurrenceRule : Option String
  idx : Int
  todayIndex : Int
  deriving DecidableEq, Repr

/-- A row of the TMArea table. -/
structure AreaRow where
  uuid : String
  title : String
  idx : Int
  deriving DecidableEq, Repr

/-- A row of the TMTag table. -/
structure TagRow where
  uuid : String
  title : String
  shortcut : Option String
  idx : Int
  deriving DecidableEq, Repr

/-- A row of the TMTaskTag join table. -/
structure TaskTagRow where
  tasks : String
  tags : String
  deriving DecidableEq, Repr

/-- A row of the TMChecklistItem table. -/
structure ChecklistItemRow where
  uuid : String
  task : String
  title : String
  status : Nat
  stopDate : Option Int
  userModificationDate : Option Int
  idx : Int
  deriving DecidableEq, Repr

/-- The state of the Things SQLite store that the queries read. -/
structure DB where
  tasks : List TaskRow
  areas : List AreaRow
  tags : List TagRow
  taskTags : List TaskTagRow
  checklistItems : List ChecklistItemRow
  deriving DecidableEq, Repr

/-- Stable ascending sort by an integer key: the semantics of
`ORDER BY` on an index column (insertion sort keeps the relative order
of equal keys). -/
def sortByKey {α : Type} (key : α → Int) (l : List α) : List α :=
  @List.insertionSort α (fun a b => key a ≤ key b) (fun a b => Int.decLe (key a) (key b)) l

/-- Python `str.title()` for ASCII text: a letter after a non-letter is
uppercased, any other letter is lowercased (used on the `start`
argument before validation). -/
def pyTitleGo : List Char → Bool → List Char
  | [], _ => []
  | c :: cs, prevAlpha =>
    (if c.isAlpha then (if prevAlpha then c.toLower else c.toUpper) else c) ::
      pyTitleGo cs c.isAlpha

/-- Python `str.title()` (ASCII). -/
def pyTitle (s : String) : String :=
  ⟨pyTitleGo s.data false⟩

/-- Digit run of a Python integer literal after the first digit: ASCII
digits with single underscores allowed between digits. -/
def pyIntDigitsGo : List Char → Nat → Option Nat
  | [], acc => some acc
  | c :: cs, acc =>
    if c.isDigit then pyIntDigitsGo cs (acc * 10 + (c.toNat - 48))
    else if c = '_' then
      match cs with
      | d :: _ => if d.isDigit then pyIntDigitsGo cs acc else none
      | [] => none
    else none

/-- An unsigned Python integer literal: a digit followed by digits and
single interior underscores. -/
def pyIntCore : List Char → Option Nat
  | [] => none
  | c :: cs => if c.isDigit then pyIntDigitsGo cs (c.toNat - 48) else none

/-- Python `int(str)` for ASCII input: strips surrounding whitespace,
reads an optional sign and a digit run; None models the ValueError on
anything else. -/
def pyInt (s : String) : Option Int :=
  let t := ((s.data.dropWhile Char.isWhitespace).reverse.dropWhile Char.isWhitespace).reverse
  match t with
  | '-' :: rest => (pyIntCore rest).map (fun n => -(n : Int))
  | '+' :: rest => (pyIntCore rest).map (fun n => (n : Int))
  | _ => (pyIntCore t).map (fun n => (n : Int))

/-- `validate_offset` from database.py: None passes; for a string only
the final character (`argument[-1:]`, the empty string for "") is
checked to be d, w or y; nothing else about the argument is
inspected. -/
def validate_offset (parameter : String) (argument : Option String) : Except PyErr Unit :=
  match argument with
  | none => .ok ()
  | some s =>
    if s.takeRight 1 == "d" || s.takeRight 1 == "w" || s.takeRight 1 == "y" then .ok ()
    else .error (.invalidArg parameter s)

/-- `make_filter` from database.py: the per-filter SQL fragment.  The
Python dict dispatch maps None to the empty fragment, False to IS NULL,
True to IS NOT NULL, and any string to a quoted equality. -/
def make_filter (column : String) (value : FilterVal) : String :=
  match value with
  | .fnone => ""
  | .fbool false => "AND " ++ column ++ " IS NULL"
  | .fbool true => "AND " ++ column ++ " IS NOT NULL"
  | .fstr s => "AND " ++ column ++ " = \"" ++ s ++ "\""

/-- The SQLite date modifier that `make_date_filter` interpolates:
`validate_offset` first (ValueError for a bad final character), then
`int(offset[:-1])` (ValueError for a non-integer prefix), then
"-N days" for d, "-7N days" for w, "-N years" for y. -/
def dateModifier (offset : String) : Except PyErr String :=
  match validate_offset "offset" (some offset) with
  | .error e => .error e
  | .ok _ =>
    match pyInt (offset.dropRight 1) with
    | none => .error (.invalidLiteral (offset.dropRight 1))
    | some n =>
      if offset.takeRight 1 == "d" then .ok ("-" ++ toString n ++ " days")
      else if offset.takeRight 1 == "w" then .ok ("-" ++ toString (n * 7) ++ " days")
      else .ok ("-" ++ toString n ++ " years")

/-- `make_date_filter` from database.py: the empty fragment for None,
otherwise the comparison of the column (converted from unixepoch to
localtime) against datetime('now', 'localtime', modifier). -/
def make_date_filter (date_column : String) (offset : Option String) : Except PyErr String :=
  match offset with
  | none => .ok ""
  | some off =>
    match dateModifier off with
    | .error e => .error e
    | .ok m =>
      .ok ("AND datetime(" ++ date_column ++ ", 'unixepoch', 'localtime') > datetime('now', 'localtime', '"
            ++ m ++ "')")

/-- Meaning of a SQLite date modifier the filter can emit: a shift of
whole days, or of calendar years, backwards from the current moment. -/
inductive DateShift where
  | daysAgo (n : Nat)
  | yearsAgo (n : Nat)
  deriving DecidableEq, Repr

/-- Reads a modifier string "-N days" / "-N years" back into the shift
it denotes (none for anything else, including a positive shift). -/
def modifierShift (m : String) : Option DateShift :=
  if m.takeRight 5 == " days" then
    match pyInt (m.dropRight 5) with
    | some k => if k ≤ 0 then some (.daysAgo (-k).toNat) else none
    | none => none
  else if m.takeRight 6 == " years" then
    match pyInt (m.dropRight 6) with
    | some k => if k ≤ 0 then some (.yearsAgo (-k).toNat) else none
    | none => none
  else none

/-- The argument set of Database.get_tasks apart from uuid and
count_only, with the signature's defaults (status None, trashed False,
index "index"). -/
structure TaskFilters where
  type_ : Option String := none
  status : Option String := none
  start : Option String := none
  area : FilterVal := .fnone
  project : FilterVal := .fnone
  heading : FilterVal := .fnone
  tag : FilterVal := .fnone
  start_date : FilterVal := .fnone
  deadline : FilterVal := .fnone
  trashed : Option Bool := some false
  last : Option String := none
  search_query : Option String := none
  index : String := "index"
  deriving DecidableEq, Repr

/-- `validate` from database.py specialized to an optional string
argument: membership in the closed list of legal values, ValueError
otherwise. -/
def validateChoice (parameter : String) (argument : Option String)
    (valid : List (Option String)) : Except PyErr Unit :=
  if argument ∈ valid then .ok ()
  else .error (.invalidArg parameter (argument.getD "None"))

/-- Tag titles in tag-index order: `get_tags(titles_only=True)`. -/
def get_tags_titles (db : DB) : List String :=
  (sortByKey TagRow.idx db.tags).map TagRow.title

/-- The tag validation of get_tasks.  Python tests
`tag in [None] + titles`: a concrete title must be in the live title
set, and a bool sentinel never equals None or a string, so True and
False are always rejected with ValueError. -/
def validateTag (db : DB) (tag : FilterVal) : Except PyErr Unit :=
  match tag with
  | .fnone => .ok ()
  | .fstr s =>
    if s ∈ get_tags_titles db then .ok ()
    else .error (.invalidArg "tag" s)
  | .fbool b => .error (.invalidArg "tag" (if b then "True" else "False"))

/-- The validation prefix of get_tasks in source order: type, status,
start (after str.title()), index, the offset shape of `last`, and the
tag's membership in the live tag titles. -/
def validateParams (db : DB) (f : TaskFilters) : Except PyErr Unit :=
  match validateChoice "type" f.type_ [none, some "to-do", some "project", some "heading"] with
  | .error e => .error e
  | .ok _ =>
  match validateChoice "status" f.status [none, some "incomplete", some "canceled", some "completed"] with
  | .error e => .error e
  | .ok _ =>
  match validateChoice "start" (f.start.map pyTitle) [none, some "Inbox", some "Anytime", some "Someday"] with
  | .error e => .error e
  | .ok _ =>
  match validateChoice "index" (some f.index) [some "index", some "todayIndex"] with
  | .error e => .error e
  | .ok _ =>
  match validate_offset "last" f.last with
  | .error e => .error e
  | .ok _ => validateTag db f.tag

/-- Uuid lookup in the task table: the semantics of a LEFT OUTER JOIN
of TMTask against itself on a reference column (uuid is the primary
key, so at most one row matches). -/
def lookupTask (db : DB) (r : Option String) : Option TaskRow :=
  r.bind (fun u => db.tasks.find? (fun t => t.uuid == u))

/-- The PROJECT join row of a task. -/
def projectOf (db : DB) (t : TaskRow) : Option TaskRow :=
  lookupTask db t.project

/-- The HEADING join row of a task (join on actionGroup). -/
def headingOf (db : DB) (t : TaskRow) : Option TaskRow :=
  lookupTask db t.actionGroup

/-- The HEADPROJ join row: the project of the task's heading. -/
def headingProjectOf (db : DB) (t : TaskRow) : Option TaskRow :=
  (headingOf db t).bind (fun h => lookupTask db h.project)

/-- Semantics of `(X.title IS NULL OR X.trashed = 0)` for an ancestor
join row: a task row's title is never NULL, so the title test is
exactly "the join found no row". -/
def notTrashedOrMissing : Option TaskRow → Bool
  | none => true
  | some p => p.trashed == 0

/-- Semantics of the TYPE_TO_FILTER.get fragment (no constraint when
the argument is None or, unreachably after validation, unknown). -/
def typePred (v : Option String) (t : TaskRow) : Bool :=
  match v with
  | some "to-do" => t.taskType == 0
  | some "project" => t.taskType == 1
  | some "heading" => t.taskType == 2
  | _ => true

/-- Semantics of the STATUS_TO_FILTER.get fragment. -/
def statusPred (v : Option String) (t : TaskRow) : Bool :=
  match v with
  | some "incomplete" => t.status == 0
  | some "canceled" => t.status == 2
  | some "completed" => t.status == 3
  | _ => true

/-- Semantics of the START_TO_FILTER.get fragment, applied to the
str.title()-cased argument as in the source. -/
def startPred (v : Option String) (t : TaskRow) : Bool :=
  match v.map pyTitle with
  | some "Inbox" => t.start == 0
  | some "Anytime" => t.start == 1
  | some "Someday" => t.start == 2
  | _ => true

/-- Semantics of the TRASHED_TO_FILTER.get fragment. -/
def trashedPred (v : Option Bool) (t : TaskRow) : Bool :=
  match v with
  | some true => t.trashed == 1
  | some false => t.trashed == 0
  | none => true

/-- SQL semantics of make_filter's fragment over a nullable text
column: no fragment is always-true; IS NOT NULL / IS NULL test
presence; a quoted literal is an exact equality (NULL = x is not
true). -/
def evalStrFilter (col : Option String) (v : FilterVal) : Bool :=
  match v with
  | .fnone => true
  | .fbool true => col.isSome
  | .fbool false => col.isNone
  | .fstr s => col == some s

/-- SQL semantics of make_filter's fragment over a nullable INTEGER
column: as evalStrFilter, except that in SQLite an integer value never
compares equal to a quoted text literal, so the equality case is
false. -/
def evalIntFilter (col : Option Int) (v : FilterVal) : Bool :=
  match v with
  | .fnone => true
  | .fbool true => col.isSome
  | .fbool false => col.isNone
  | .fstr _ => false

/-- The uuid argument as it reaches make_filter('TASK.uuid', uuid) in
the filter-set branch (where it is None or the non-truthy ""). -/
def uuidFilterVal : Option String → FilterVal
  | none => .fnone
  | some s => .fstr s

/-- The TMTaskTag rows of a task (the TAGS join). -/
def taskTagJoins (db : DB) (t : TaskRow) : List TaskTagRow :=
  db.taskTags.filter (fun tt => tt.tasks == t.uuid)

/-- The TAG row a TMTaskTag row joins to. -/
def tagOfJoin (db : DB) (tt : TaskTagRow) : Option TagRow :=
  db.tags.find? (fun g => g.uuid == tt.tags)

/-- SQL semantics of make_filter("TAG.title", tag) over the left-joined
tag title: True requires some joined tag row, False requires a join row
whose TAG.title is NULL (no TMTaskTag entries at all, or a dangling
one), a string requires a joined tag with that exact title. -/
def tagPred (db : DB) (v : FilterVal) (t : TaskRow) : Bool :=
  match v with
  | .fnone => true
  | .fbool true => (taskTagJoins db t).any (fun tt => (tagOfJoin db tt).isSome)
  | .fbool false =>
    (taskTagJoins db t).isEmpty || (taskTagJoins db t).any (fun tt => (tagOfJoin db tt).isNone)
  | .fstr s =>
    (taskTagJoins db t).any (fun tt =>
      match tagOfJoin db tt with
      | some g => g.title == s
      | none => false)

/-- Case-insensitive substring containment: SQLite LIKE "%q%" (no
wildcard characters in the library's queries beyond the outer
percents). -/
def likeContains (hay needle : String) : Bool :=
  decide ((needle.data.map Char.toLower) <:+: (hay.data.map Char.toLower))

/-- The AREA join row of a task. -/
def lookupArea (db : DB) (r : Option String) : Option AreaRow :=
  r.bind (fun u => db.areas.find? (fun a => a.uuid == u))

/-- Semantics of make_search_filter: no constraint for an absent or
empty query, otherwise substring containment in the task title, the
task notes or the joined area title (NULL area title matches
nothing). -/
def searchPred (db : DB) (q : Option String) (t : TaskRow) : Bool :=
  match q with
  | none => true
  | some qs =>
    if qs == "" then true
    else
      likeContains t.title qs || likeContains t.notes qs ||
        (match lookupArea db t.area with
         | some a => likeContains a.title qs
         | none => false)

/-- Interpretation environment for the rendered comparison
datetime(col, 'unixepoch', 'localtime') > datetime('now', 'localtime',
modifier): given the column's epoch seconds and the modifier string it
decides the comparison.  The ambient wall clock and timezone of SQLite
live in this parameter; every theorem below holds for each
interpretation. -/
def DateEnv : Type := Int → String → Bool

/-- Row semantics of the `last` date fragment: no constraint when no
fragment was rendered, false on a NULL creation date, otherwise the
environment's verdict. -/
def lastPred (env : DateEnv) (m : Option String) (t : TaskRow) : Bool :=
  match m with
  | none => true
  | some modif =>
    match t.creationDate with
    | none => false
    | some c => env c modif

/-- The WHERE predicate of get_tasks's filter-set (non-identifier)
branch, conjunct for conjunct in source order: recurrence exclusion,
the two trashed-ancestor guards, trashed/type/start/status enum
fragments, then the make_filter fragments for uuid, area, project,
heading, start date and deadline, the tag fragment, the rendered date
fragment, and the search fragment. -/
def matchesFilters (env : DateEnv) (db : DB) (uuidArg : Option String)
    (f : TaskFilters) (m : Option String) (t : TaskRow) : Bool :=
  t.recurrenceRule.isNone
  && notTrashedOrMissing (projectOf db t)
  && notTrashedOrMissing (headingProjectOf db t)
  && trashedPred f.trashed t
  && typePred f.type_ t
  && startPred f.start t
  && statusPred f.status t
  && evalStrFilter (some t.uuid) (uuidFilterVal uuidArg)
  && evalStrFilter t.area f.area
  && evalStrFilter t.project f.project
  && evalStrFilter t.actionGroup f.heading
  && evalIntFilter t.startDate f.start_date
  && evalIntFilter t.dueDate f.deadline
  && tagPred db f.tag t
  && lastPred env m t
  && searchPred db f.search_query t

/-- The ORDER BY key: the "index" column or todayIndex. -/
def orderIndexKey (index : String) (t : TaskRow) : Int :=
  if index == "index" then t.idx else t.todayIndex

/-- The task rows selected by the filter-set branch, in the requested
index order. -/
def filterFormTasks (env : DateEnv) (db : DB) (uuidArg : Option String)
    (f : TaskFilters) (m : Option String) : List TaskRow :=
  sortByKey (orderIndexKey f.index) (db.tasks.filter (matchesFilters env db uuidArg f m))

/-- The task rows selected by the single-identifier branch: WHERE is
just TRUE AND TASK.uuid = "u" (no recurrence or trashed-ancestor
conjunct), ordered by the default "index" column. -/
def uuidFormTasks (db : DB) (u : String) : List TaskRow :=
  sortByKey TaskRow.idx (db.tasks.filter (fun t => t.uuid == u))

/-- One output row of make_tasks_sql_query after dict_factory
post-processing, restricted to the columns the api layer and the
claims read.  An Option none is a NULL that dict_factory omitted from
the dict; `tags` / `checklist` / `trashed` carry some true for a
presence flag coerced to bool. -/
structure OutRow where
  uuid : String
  type_ : Option String
  trashed : Option Bool
  title : String
  status : Option String
  area : Option String
  project : Option String
  heading : Option String
  notes : String
  tags : Option Bool
  start : Option String
  checklist : Option Bool
  start_date : Option Int
  deadline : Option Int
  idx : Int
  today_index : Int
  deriving DecidableEq, Repr

/-- The `type` CASE of the SELECT ('to-do' / 'project' / 'heading',
NULL otherwise). -/
def typeName : Nat → Option String
  | 0 => some "to-do"
  | 1 => some "project"
  | 2 => some "heading"
  | _ => none

/-- The `status` CASE of the SELECT. -/
def statusName : Nat → Option String
  | 0 => some "incomplete"
  | 2 => some "canceled"
  | 3 => some "completed"
  | _ => none

/-- The `start` CASE of the SELECT. -/
def startName : Nat → Option String
  | 0 => some "Inbox"
  | 1 => some "Anytime"
  | 2 => some "Someday"
  | _ => none

/-- A selected task row shaped by the SELECT's CASE expressions and
dict_factory: references resolve through the LEFT OUTER JOINs, the tag
and checklist presence flags become some true exactly when a joined
row exists. -/
def rowOf (db : DB) (t : TaskRow) : OutRow where
  uuid := t.uuid
  type_ := typeName t.taskType
  trashed := if t.trashed == 1 then some true else none
  title := t.title
  status := statusName t.status
  area := (lookupArea db t.area).map AreaRow.uuid
  project := (projectOf db t).map TaskRow.uuid
  heading := (headingOf db t).map TaskRow.uuid
  notes := t.notes
  tags := if (taskTagJoins db t).any (fun tt => (tagOfJoin db tt).isSome) then some true else none
  start := startName t.start
  checklist := if db.checklistItems.any (fun c => c.task == t.uuid) then some true else none
  start_date := t.startDate
  deadline := t.dueDate
  idx := t.idx
  today_index := t.todayIndex

/-- `get_count`: SELECT COUNT(uuid) FROM (subquery).  The uuid column
of the subquery is never NULL, so the scalar is the subquery's row
count. -/
def get_count (rows : List OutRow) : Nat :=
  rows.length

/-- Rendering of the `last` fragment before the query runs
(make_date_filter on TASK.creationDate): the modifier the row
predicate will interpret, or the ValueError that int() raises inside
make_date_filter. -/
def resolveLast (last : Option String) : Except PyErr (Option String) :=
  match last with
  | none => .ok none
  | some off =>
    match dateModifier off with
    | .error e => .error e
    | .ok m => .ok (some m)

/-- Python truthiness of the uuid argument: None and "" are falsy. -/
def uuidTruthy : Option String → Bool
  | none => false
  | some u => !(u == "")

/-- The filter-set branch end to end: render the date fragment (this
is where a malformed `last` surfaces), then select, order and shape the
rows. -/
def filterFormRows (env : DateEnv) (db : DB) (uuidArg : Option String)
    (f : TaskFilters) : Except PyErr (List OutRow) :=
  match resolveLast f.last with
  | .error e => .error e
  | .ok m => .ok ((filterFormTasks env db uuidArg f m).map (rowOf db))

/-- Database.get_tasks with count_only=True: validation, then the
count of the branch the uuid's truthiness selects.  No existence check
happens in this mode. -/
def getTasksCount (env : DateEnv) (db : DB) (uuidArg : Option String)
    (f : TaskFilters) : Except PyErr Nat :=
  match validateParams db f with
  | .error e => .error e
  | .ok _ =>
    if uuidTruthy uuidArg then
      .ok (get_count ((uuidFormTasks db (uuidArg.getD "")).map (rowOf db)))
    else
      match filterFormRows env db uuidArg f with
      | .error e => .error e
      | .ok rows => .ok (get_count rows)

/-- Database.get_tasks with count_only=False: validation, then for a
truthy uuid the existence check through a recursive count_only=True
call with default parameters (ValueError "No such task uuid found" on
zero) and the identifier-branch rows; otherwise the filter-set
branch. -/
def getTasksRows (env : DateEnv) (db : DB) (uuidArg : Option String)
    (f : TaskFilters) : Except PyErr (List OutRow) :=
  match validateParams db f with
  | .error e => .error e
  | .ok _ =>
    if uuidTruthy uuidArg then
      let u := uuidArg.getD ""
      match getTasksCount env db (some u) {} with
      | .error e => .error e
      | .ok 0 => .error (.noSuchUuid u)
      | .ok (_ + 1) => .ok ((uuidFormTasks db u).map (rowOf db))
    else filterFormRows env db uuidArg f

/-- A checklist item row as get_checklist_items returns it (the
columns the api layer reads). -/
structure ChecklistOut where
  title : String
  status : Option String
  uuid : String
  deriving DecidableEq, Repr

/-- `get_checklist_items(todo_uuid)`: the to-do's checklist items in
checklist-index order. -/
def get_checklist_items (db : DB) (todo_uuid : String) : List ChecklistOut :=
  (sortByKey ChecklistItemRow.idx (db.checklistItems.filter (fun c => c.task == todo_uuid))).map
    (fun c => { title := c.title, status := statusName c.status, uuid := c.uuid })

/-- Keyword-argument dispatch for a call of get_checklist_items: the
function's only parameter (besides self) is named todo_uuid, so Python
raises TypeError for any other keyword.  api.tasks calls it with
task_uuid=..., which hits the error branch. -/
def get_checklist_items_kwcall (db : DB) (keyword : String) (v : String) :
    Except PyErr (List ChecklistOut) :=
  if keyword == "todo_uuid" then .ok (get_checklist_items db v)
  else .error (.unexpectedKeyword "get_checklist_items" keyword)

/-- `get_tags(task=uuid)`: the task's tag titles in tag-index order
(a dangling TMTaskTag reference contributes nothing). -/
def get_tags_of_task (db : DB) (u : String) : List String :=
  (sortByKey TagRow.idx
      (db.tags.filter (fun g => db.taskTags.any (fun tt => tt.tasks == u && tt.tags == g.uuid)))).map
    TagRow.title

/-- A task dict after api.tasks post-processing: the raw row plus
resolved tag titles, expanded checklist items, and expanded child
items. -/
inductive ShapedTask where
  | mk (row : OutRow) (tags : Option (List String))
      (checklist : Option (List ChecklistOut)) (items : Option (List ShapedTask))

/-- The raw row of a shaped task. -/
def ShapedTask.row : ShapedTask → OutRow
  | .mk r _ _ _ => r

/-- The resolved tag titles of a shaped task. -/
def ShapedTask.tags : ShapedTask → Option (List String)
  | .mk _ t _ _ => t

/-- The expanded checklist of a shaped task. -/
def ShapedTask.checklist : ShapedTask → Option (List ChecklistOut)
  | .mk _ _ c _ => c

/-- The expanded child items of a shaped task. -/
def ShapedTask.items : ShapedTask → Option (List ShapedTask)
  | .mk _ _ _ i => i

/-- The sort key of api.tasks's project-items sort: item["type"]
(the empty string stands in for a None key, which sortItemsPy rejects
before any comparison could read it). -/
def itemTypeKey (s : ShapedTask) : String :=
  (ShapedTask.row s).type_.getD ""

/-- items.sort(key=item type, reverse=True) orders by key descending
(Python compares strings lexicographically by code point, i.e. by their
character sequences); a tie keeps the relative order because Python
sorts are stable. -/
def childSortRel (a b : ShapedTask) : Prop :=
  (itemTypeKey b).data ≤ (itemTypeKey a).data

instance : DecidableRel childSortRel :=
  fun a b => inferInstanceAs (Decidable ((itemTypeKey b).data ≤ (itemTypeKey a).data))

instance : IsTotal ShapedTask childSortRel :=
  ⟨fun a b => le_total (itemTypeKey b).data (itemTypeKey a).data⟩

instance : IsTrans ShapedTask childSortRel :=
  ⟨fun _ _ _ h1 h2 => le_trans h2 h1⟩

/-- Python list.sort on the type key: TypeError as soon as a
comparison involves a None key (which happens exactly when the list
has two or more items and some key is None); otherwise the stable
descending sort. -/
def sortItemsPy (l : List ShapedTask) : Except PyErr (List ShapedTask) :=
  if 2 ≤ l.length ∧ l.any (fun s => (ShapedTask.row s).type_.isNone) = true then
    .error .noneComparison
  else .ok (List.insertionSort childSortRel l)

/-- The loop body order of Python exceptions over a row list: the
first failing element's error, else the list of results. -/
def mapOrErr {α β : Type} (g : α → Except PyErr β) : List α → Except PyErr (List β)
  | [] => .ok []
  | x :: xs =>
    match g x with
    | .error e => .error e
    | .ok y =>
      match mapOrErr g xs with
      | .error e => .error e
      | .ok ys => .ok (y :: ys)

/-- Filters of the recursive call tasks(project=uuid,
include_items=True, database=db): the api layer fills in status
"incomplete" because the kwargs omit it; everything else keeps
get_tasks defaults. -/
def projectChildFilters (u : String) : TaskFilters :=
  { project := .fstr u, status := some "incomplete" }

/-- Filters of the recursive call tasks(type="to-do", heading=uuid,
include_items=True, database=db). -/
def headingChildFilters (u : String) : TaskFilters :=
  { type_ := some "to-do", heading := .fstr u, status := some "incomplete" }

/-- Filters of a direct api.tasks call that passes no filter kwargs:
only the popped status default "incomplete". -/
def apiDefaultFilters : TaskFilters :=
  { status := some "incomplete" }

/-- The per-task body of api.tasks's loop: resolve the tag flag into
titles, then — only when items are included — attach checklist items
for a to-do (through the buggy task_uuid keyword call), the
recursively fetched and sorted children for a project, or the
recursively fetched child to-dos for a heading.  The recursion through
nested tasks() calls is bounded by fuel, the remaining recursion
depth: at 0 the model reports RecursionError, as Python's stack would
on a cyclic hierarchy; every claim quantifies over or fixes a
sufficient fuel. -/
def shapeOne (env : DateEnv) (db : DB) : Nat → Bool → OutRow → Except PyErr ShapedTask
  | 0, _, _ => .error .recursionError
  | fuel + 1, includeItems, r =>
    let tags := if r.tags == some true then some (get_tags_of_task db r.uuid) else none
    if !includeItems then .ok (.mk r tags none none)
    else if r.type_ == some "to-do" then
      if r.checklist == some true then
        match get_checklist_items_kwcall db "task_uuid" r.uuid with
        | .error e => .error e
        | .ok cl => .ok (.mk r tags (some cl) none)
      else .ok (.mk r tags none none)
    else if r.type_ == some "project" then
      match getTasksRows env db none (projectChildFilters r.uuid) with
      | .error e => .error e
      | .ok rows =>
        match mapOrErr (shapeOne env db fuel true) rows with
        | .error e => .error e
        | .ok pre =>
          match sortItemsPy pre with
          | .error e => .error e
          | .ok sorted => .ok (.mk r tags none (some sorted))
    else if r.type_ == some "heading" then
      match getTasksRows env db none (headingChildFilters r.uuid) with
      | .error e => .error e
      | .ok rows =>
        match mapOrErr (shapeOne env db fuel true) rows with
        | .error e => .error e
        | .ok items => .ok (.mk r tags none (some items))
    else .ok (.mk r tags none none)

/-- api.tasks as invoked recursively for child items: uuid None,
count_only absent, include_items True — fetch the rows and shape each
with items expanded.  shapeOne's project and heading branches inline
exactly this body one fuel step down. -/
def apiTasksList (env : DateEnv) (db : DB) : Nat → TaskFilters → Except PyErr (List ShapedTask)
  | 0, _ => .error .recursionError
  | fuel + 1, f =>
    match getTasksRows env db none f with
    | .error e => .error e
    | .ok rows => mapOrErr (shapeOne env db fuel true) rows

/-- The result of a top-level api.tasks call: a single dict for a
truthy uuid, a list otherwise, an int under count_only. -/
inductive ApiResult where
  | single (t : ShapedTask)
  | listed (l : List ShapedTask)
  | count (n : Nat)

/-- api.tasks(uuid, include_items, **kwargs): get_tasks with the
popped status (f.status holds kwargs.pop("status", "incomplete")); a
count_only call returns the scalar unshaped; otherwise the
include_items flag is overwritten to True when a truthy uuid's first
row is a to-do or heading, every row is shaped, and a truthy uuid
returns result[0]. -/
def apiTasksTop (env : DateEnv) (db : DB) (fuel : Nat) (uuidArg : Option String)
    (includeItems : Bool) (f : TaskFilters) (countOnly : Bool) : Except PyErr ApiResult :=
  if countOnly then
    match getTasksCount env db uuidArg f with
    | .error e => .error e
    | .ok n => .ok (.count n)
  else
    match getTasksRows env db uuidArg f with
    | .error e => .error e
    | .ok rows =>
      let inc : Except PyErr Bool :=
        if uuidTruthy uuidArg then
          match rows.head? with
          | none => .error .indexError
          | some r =>
            .ok (if r.type_ == some "to-do" || r.type_ == some "heading" then true
                 else includeItems)
        else .ok includeItems
      match inc with
      | .error e => .error e
      | .ok incFlag =>
        match mapOrErr (shapeOne env db fuel incFlag) rows with
        | .error e => .error e
        | .ok shaped =>
          if uuidTruthy uuidArg then
            match shaped.head? with
            | none => .error .indexError
            | some s => .ok (.single s)
          else .ok (.listed shaped)

/-! ### Helper lemmas -/

/-- A successful mapOrErr element comes from a successful application of
the function to an element of the input list. -/
theorem mapOrErr_ok_mem {α β : Type} (g : α → Except PyErr β) :
    ∀ (l : List α) (out : List β), mapOrErr g l = .ok out → ∀ y ∈ out, ∃ x ∈ l, g x = .ok y
  | [], out, h => by
    intro y hy
    simp only [mapOrErr] at h
    cases h
    simp at hy
  | x :: xs, out, h => by
    intro y hy
    simp only [mapOrErr] at h
    cases hgx : g x with
    | error e => rw [hgx] at h; cases h
    | ok y0 =>
      rw [hgx] at h
      cases hrest : mapOrErr g xs with
      | error e => rw [hrest] at h; cases h
      | ok ys =>
        rw [hrest] at h
        cases h
        rcases List.mem_cons.mp hy with h1 | h1
        · subst h1; exact ⟨x, List.mem_cons_self _ _, hgx⟩
        · obtain ⟨x', hx', hg'⟩ := mapOrErr_ok_mem g xs ys hrest y h1
          exact ⟨x', List.mem_cons_of_mem _ hx', hg'⟩

/-- Shaping never changes the underlying row. -/
theorem shapeOne_row (env : DateEnv) (db : DB) (fuel : Nat) (inc : Bool) (r : OutRow)
    (s : ShapedTask) (h : shapeOne env db fuel inc r = .ok s) : ShapedTask.row s = r := by
  cases fuel with
  | zero => cases h
  | succ fuel =>
    unfold shapeOne at h
    repeat' split at h
    all_goals first
      | (cases h; rfl)
      | cases h

/-- The type CASE takes only the three names or NULL. -/
theorem typeName_range (n : Nat) :
    typeName n = none ∨ typeName n = some "to-do" ∨ typeName n = some "project" ∨
      typeName n = some "heading" := by
  match n with
  | 0 => exact Or.inr (Or.inl rfl)
  | 1 => exact Or.inr (Or.inr (Or.inl rfl))
  | 2 => exact Or.inr (Or.inr (Or.inr rfl))
  | n + 3 => exact Or.inl rfl

/-- Every successful full-row result is an image of rowOf over task
rows. -/
theorem getTasksRows_shape (env : DateEnv) (db : DB) (uuidArg : Option String) (f : TaskFilters)
    (rows : List OutRow) (h : getTasksRows env db uuidArg f = .ok rows) :
    ∃ l : List TaskRow, rows = l.map (rowOf db) := by
  unfold getTasksRows at h
  cases hv : validateParams db f with
  | error e => rw [hv] at h; cases h
  | ok u =>
    rw [hv] at h
    by_cases ht : uuidTruthy uuidArg = true
    · rw [if_pos ht] at h
      simp only at h
      cases hc : getTasksCount env db (some (uuidArg.getD "")) {} with
      | error e => rw [hc] at h; cases h
      | ok n =>
        rw [hc] at h
        cases n with
        | zero => cases h
        | succ k => cases h; exact ⟨_, rfl⟩
    · rw [if_neg ht] at h
      unfold filterFormRows at h
      cases hm : resolveLast f.last with
      | error e => rw [hm] at h; cases h
      | ok m => rw [hm] at h; cases h; exact ⟨_, rfl⟩

/-- Every successful full-row result carries only the three type names
or NULL in its type column. -/
theorem getTasksRows_type_range (env : DateEnv) (db : DB) (uuidArg : Option String)
    (f : TaskFilters) (rows : List OutRow) (h : getTasksRows env db uuidArg f = .ok rows) :
    ∀ r ∈ rows, r.type_ = none ∨ r.type_ = some "to-do" ∨ r.type_ = some "project" ∨
      r.type_ = some "heading" := by
  obtain ⟨l, rfl⟩ := getTasksRows_shape env db uuidArg f _ h
  intro r hr
  obtain ⟨t, ht, rfl⟩ := List.mem_map.mp hr
  exact typeName_range t.taskType

/-- Inserting into the stable descending sort touches no other key
class: the filtered subsequence of any one key either gains the new
element in front (its own key) or is unchanged. -/
theorem filter_orderedInsert_key (a : ShapedTask) (m : List ShapedTask) (k : String) :
    (List.orderedInsert childSortRel a m).filter (fun s => itemTypeKey s == k) =
      if itemTypeKey a == k then a :: m.filter (fun s => itemTypeKey s == k)
      else m.filter (fun s => itemTypeKey s == k) := by
  induction m with
  | nil =>
    by_cases hak : itemTypeKey a = k <;>
      simp [List.orderedInsert, List.filter_cons, beq_iff_eq, hak]
  | cons y ys ih =>
    rw [List.orderedInsert]
    by_cases hr : childSortRel a y
    · rw [if_pos hr]
      by_cases hak : itemTypeKey a = k <;> by_cases hyk : itemTypeKey y = k <;>
        simp [List.filter_cons, beq_iff_eq, hak, hyk]
    · rw [if_neg hr]
      by_cases hak : itemTypeKey a = k
      · have hyk : ¬ itemTypeKey y = k := by
          intro hy
          exact hr (by unfold childSortRel; rw [hy, hak])
        simp [List.filter_cons, beq_iff_eq, hak, hyk, ih]
      · simp [List.filter_cons, beq_iff_eq, hak, ih]

/-- Stability of the Python child sort, per key class: sorting does not
reorder elements of equal type key. -/
theorem filter_insertionSort_key (l : List ShapedTask) (k : String) :
    (List.insertionSort childSortRel l).filter (fun s => itemTypeKey s == k) =
      l.filter (fun s => itemTypeKey s == k) := by
  induction l with
  | nil => rfl
  | cons a l ih =>
    rw [List.insertionSort, filter_orderedInsert_key]
    by_cases hak : itemTypeKey a = k <;> simp [List.filter_cons, beq_iff_eq, hak, ih]

/-! ### Fixtures for the concrete theorems -/

/-- A date environment that lets every rendered date comparison pass
(the claims below never depend on its verdict). -/
def trueEnv : DateEnv := fun _ _ => true

/-- An ordinary incomplete to-do. -/
def plainTodo : TaskRow :=
  { uuid := "T", taskType := 0, status := 0, trashed := 0, title := "buy milk",
    notes := "", start := 1, startDate := none, dueDate := none, stopDate := none,
    creationDate := none, userModificationDate := none, area := none, project := none,
    actionGroup := none, recurrenceRule := none, idx := 1, todayIndex := 1 }

/-- A store holding only plainTodo. -/
def dbPlain : DB :=
  { tasks := [plainTodo], areas := [], tags := [], taskTags := [], checklistItems := [] }

/-- A recurring template task. -/
def recurringTask : TaskRow :=
  { plainTodo with uuid := "R", recurrenceRule := some "FREQ=DAILY" }

/-- A store holding only the recurring template. -/
def dbRecurring : DB := { dbPlain with tasks := [recurringTask] }

/-- A trashed project. -/
def trashedProject : TaskRow :=
  { plainTodo with uuid := "P1", taskType := 1, trashed := 1, title := "old project" }

/-- A non-trashed to-do owned by the trashed project. -/
def childOfTrashed : TaskRow :=
  { plainTodo with uuid := "C1", project := some "P1", idx := 2 }

/-- A store holding the trashed project and its child. -/
def dbTrashedParent : DB :=
  { tasks := [trashedProject, childOfTrashed], areas := [], tags := [], taskTags := [],
    checklistItems := [] }

/-! ### Claim theorems -/

/-- C1: for every column name and every filter value, make_filter renders
the empty fragment when the value is absent, an IS NOT NULL assertion for
the presence sentinel true, an IS NULL assertion for the absence sentinel
false, and an exact equality with the value embedded as a quoted literal
for a concrete string value. -/
theorem c1_make_filter_cases (column s : String) :
    make_filter column .fnone = "" ∧
    make_filter column (.fbool true) = "AND " ++ column ++ " IS NOT NULL" ∧
    make_filter column (.fbool false) = "AND " ++ column ++ " IS NULL" ∧
    make_filter column (.fstr s) = "AND " ++ column ++ " = \"" ++ s ++ "\"" :=
  ⟨rfl, rfl, rfl, rfl⟩

/-- C3 counterexample: "-3d" is not of the form non-negative-integer plus
unit, yet make_date_filter accepts it (validate_offset checks only the
final character and int("-3") parses), rendering a double-negative
modifier instead of failing with InvalidArgument. -/
theorem c3_counterexample :
    make_date_filter "TASK.creationDate" (some "-3d") =
      .ok "AND datetime(TASK.creationDate, 'unixepoch', 'localtime') > datetime('now', 'localtime', '--3 days')" :=
  rfl

/-- C3 amended: the date filter yields no constraint for None; for "3d",
"1w" and "1y" it renders the comparison of the localtime-converted column
against now shifted back 3 days, 7 days and 1 calendar year respectively;
every offset whose final character is not d, w or y (including "3x" and
"") fails with the validation ValueError, and an offset with a valid unit
whose prefix is not a Python integer literal fails with the int()
ValueError — but a negative integer prefix such as "-3d" is accepted
rather than rejected (see the counterexample). -/
theorem c3_date_filter_amended (c : String) :
    make_date_filter c none = .ok "" ∧
    dateModifier "3d" = .ok "-3 days" ∧ modifierShift "-3 days" = some (.daysAgo 3) ∧
    dateModifier "1w" = .ok "-7 days" ∧ modifierShift "-7 days" = some (.daysAgo 7) ∧
    dateModifier "1y" = .ok "-1 years" ∧ modifierShift "-1 years" = some (.yearsAgo 1) ∧
    make_date_filter c (some "3d") =
      .ok ("AND datetime(" ++ c ++ ", 'unixepoch', 'localtime') > datetime('now', 'localtime', '"
            ++ "-3 days" ++ "')") ∧
    make_date_filter c (some "3x") = .error (.invalidArg "offset" "3x") ∧
    make_date_filter c (some "") = .error (.invalidArg "offset" "") ∧
    (∀ off : String,
      (off.takeRight 1 == "d" || off.takeRight 1 == "w" || off.takeRight 1 == "y") = false →
      make_date_filter c (some off) = .error (.invalidArg "offset" off)) ∧
    (∀ off : String,
      (off.takeRight 1 == "d" || off.takeRight 1 == "w" || off.takeRight 1 == "y") = true →
      pyInt (off.dropRight 1) = none →
      make_date_filter c (some off) = .error (.invalidLiteral (off.dropRight 1))) := by
  refine ⟨rfl, rfl, rfl, rfl, rfl, rfl, rfl, rfl, rfl, rfl, ?_, ?_⟩
  · intro off hbad
    simp [make_date_filter, dateModifier, validate_offset, hbad]
  · intro off hgood hnone
    simp [make_date_filter, dateModifier, validate_offset, hgood, hnone]

/-- C3 witness: the amended theorem applied at the malformed offsets "3q"
(bad unit character) and "zd" (non-integer prefix). -/
theorem c3_date_filter_amended_witness :
    make_date_filter "created" (some "3q") = .error (.invalidArg "offset" "3q") ∧
    make_date_filter "created" (some "zd") = .error (.invalidLiteral "z") := by
  have h := c3_date_filter_amended "created"
  refine ⟨h.2.2.2.2.2.2.2.2.2.2.1 "3q" (by decide), ?_⟩
  have h2 := h.2.2.2.2.2.2.2.2.2.2.2 "zd" (by decide) (by decide)
  simpa using h2

/-- C4 counterexample: fetching a recurring template task by identifier
returns it — the single-identifier branch of get_tasks renders only the
uuid equality and applies no recurrence exclusion. -/
theorem c4_counterexample :
    recurringTask.recurrenceRule.isSome = true ∧
    getTasksRows trueEnv dbRecurring (some "R") {} = .ok [rowOf dbRecurring recurringTask] :=
  ⟨rfl, rfl⟩

/-- C4 amended: the filter-set branch of get_tasks never selects a
recurring template — for every date environment, database, residual uuid
argument, filter set and resolved date modifier, every selected row's
recurrence rule is NULL; the single-identifier branch applies no such
exclusion (see the counterexample). -/
theorem c4_filter_form_excludes_recurring (env : DateEnv) (db : DB) (uuidArg : Option String)
    (f : TaskFilters) (m : Option String) (t : TaskRow)
    (ht : t ∈ filterFormTasks env db uuidArg f m) : t.recurrenceRule = none := by
  unfold filterFormTasks sortByKey at ht
  rw [List.mem_insertionSort] at ht
  have hm := (List.mem_filter.mp ht).2
  unfold matchesFilters at hm
  simp only [Bool.and_eq_true, and_assoc] at hm
  exact Option.isNone_iff_eq_none.mp hm.1

/-- C4 witness: a concrete non-recurring task selected by the filter form,
with the amended theorem applied to it. -/
theorem c4_filter_form_excludes_recurring_witness :
    plainTodo ∈ filterFormTasks trueEnv dbPlain none {} none ∧
    plainTodo.recurrenceRule = none :=
  ⟨by decide, c4_filter_form_excludes_recurring trueEnv dbPlain none {} none plainTodo (by decide)⟩

/-- C5: in the filter-set query assembly, for every filter set a row whose
resolved owning project is trashed, or whose resolved owning heading's
project is trashed, is excluded regardless of the row's own trashed
state; and when both ancestor references resolve to nothing the two
ancestor conjuncts are satisfied, so a row is never excluded on this
ground — the check looks exactly one level up. -/
theorem c5_trashed_ancestor_exclusion (env : DateEnv) (db : DB) (uuidArg : Option String)
    (f : TaskFilters) (m : Option String) (t : TaskRow) :
    ((∃ p, projectOf db t = some p ∧ p.trashed = 1) ∨
      (∃ p, headingProjectOf db t = some p ∧ p.trashed = 1) →
      t ∉ filterFormTasks env db uuidArg f m) ∧
    (projectOf db t = none → headingProjectOf db t = none →
      (notTrashedOrMissing (projectOf db t) && notTrashedOrMissing (headingProjectOf db t)) = true) := by
  constructor
  · intro htr ht
    unfold filterFormTasks sortByKey at ht
    rw [List.mem_insertionSort] at ht
    have hm := (List.mem_filter.mp ht).2
    unfold matchesFilters at hm
    simp only [Bool.and_eq_true, and_assoc] at hm
    rcases htr with ⟨p, hp, hpt⟩ | ⟨p, hp, hpt⟩
    · have h2 := hm.2.1
      rw [hp] at h2
      unfold notTrashedOrMissing at h2
      simp [hpt] at h2
    · have h3 := hm.2.2.1
      rw [hp] at h3
      unfold notTrashedOrMissing at h3
      simp [hpt] at h3
  · intro h1 h2
    rw [h1, h2]
    rfl

/-- C5 witness: a to-do whose owning project is trashed is excluded for
the default filter set, and a task with no ancestor references passes
both ancestor conjuncts. -/
theorem c5_trashed_ancestor_exclusion_witness :
    childOfTrashed ∉ filterFormTasks trueEnv dbTrashedParent none {} none ∧
    (notTrashedOrMissing (projectOf dbPlain plainTodo) &&
      notTrashedOrMissing (headingProjectOf dbPlain plainTodo)) = true :=
  ⟨(c5_trashed_ancestor_exclusion trueEnv dbTrashedParent none {} none childOfTrashed).1
      (Or.inl ⟨trashedProject, by decide, by decide⟩),
    (c5_trashed_ancestor_exclusion trueEnv dbPlain none {} none plainTodo).2
      (by decide) (by decide)⟩

/-- C7: for every filter set in the non-identifier form, count-only mode
returns exactly the number of rows of the full-row fetch under the same
filter set — the count path wraps the identical assembled query, so the
filter semantics (and any validation failure) coincide. -/
theorem c7_count_eq_length (env : DateEnv) (db : DB) (f : TaskFilters) :
    getTasksCount env db none f = (getTasksRows env db none f).map List.length := by
  unfold getTasksCount getTasksRows
  cases hv : validateParams db f with
  | error e => rfl
  | ok u =>
    simp only [uuidTruthy, Bool.false_eq_true, if_false]
    cases hfr : filterFormRows env db none f with
    | error e => rfl
    | ok rows => rfl

/-- C10: with an identifier and count_only=True the existence check is
skipped — a nonexistent identifier yields the integer 0, while the same
call with count_only=False raises the NotFound ValueError; the error
behaviour of identifier lookup differs between the two modes. -/
theorem c10_count_only_skips_existence (env : DateEnv) (db : DB) (u : String) (f : TaskFilters)
    (hu : (u == "") = false)
    (hno : ∀ t ∈ db.tasks, ¬ t.uuid = u)
    (hv : validateParams db f = .ok ()) :
    getTasksCount env db (some u) f = .ok 0 ∧
    getTasksRows env db (some u) f = .error (.noSuchUuid u) := by
  have hfe : db.tasks.filter (fun t => t.uuid == u) = [] := by
    rw [List.filter_eq_nil_iff]
    intro a ha
    simpa using hno a ha
  have hdef : validateParams db ({} : TaskFilters) = .ok () := rfl
  have htruthy : uuidTruthy (some u) = true := by simp [uuidTruthy, hu]
  have hcount : ∀ g : TaskFilters, validateParams db g = .ok () →
      getTasksCount env db (some u) g = .ok 0 := by
    intro g hg
    unfold getTasksCount
    rw [hg, if_pos htruthy]
    simp [uuidFormTasks, sortByKey, hfe, get_count]
  refine ⟨hcount f hv, ?_⟩
  unfold getTasksRows
  rw [hv, if_pos htruthy]
  simp only [Option.getD]
  rw [hcount {} hdef]

/-- C10 witness: the theorem applied to a store holding only the task "T"
and the missing identifier "Z" with the default filter set. -/
theorem c10_count_only_skips_existence_witness :
    getTasksCount trueEnv dbPlain (some "Z") {} = .ok 0 ∧
    getTasksRows trueEnv dbPlain (some "Z") {} = .error (.noSuchUuid "Z") :=
  c10_count_only_skips_existence trueEnv dbPlain "Z" {} (by decide) (by decide) rfl

/-- A to-do that owns a checklist item. -/
def checklistTodo : TaskRow := { plainTodo with uuid := "A" }

/-- The checklist item of checklistTodo. -/
def checklistItem1 : ChecklistItemRow :=
  { uuid := "CL1", task := "A", title := "step one", status := 0, stopDate := none,
    userModificationDate := none, idx := 1 }

/-- A store holding the to-do "A" and its checklist item. -/
def dbChecklist : DB :=
  { tasks := [checklistTodo], areas := [], tags := [], taskTags := [],
    checklistItems := [checklistItem1] }

/-- C2: fetching a nonexistent identifier raises the NotFound ValueError
as claimed, and the implicit expansion of a single to-do is attempted
even though include_items was not requested — but it crashes: api.tasks
calls get_checklist_items with keyword task_uuid while the parameter is
named todo_uuid, so fetching a to-do that has checklist items raises
TypeError instead of returning the task with its items attached. -/
theorem c2_checklist_keyword_bug :
    apiTasksTop trueEnv dbChecklist 3 (some "missing") false apiDefaultFilters false =
      .error (.noSuchUuid "missing") ∧
    apiTasksTop trueEnv dbChecklist 3 (some "A") false apiDefaultFilters false =
      .error (.unexpectedKeyword "get_checklist_items" "task_uuid") :=
  ⟨rfl, rfl⟩

/-- A tag titled Home. -/
def homeTag : TagRow := { uuid := "TG1", title := "Home", shortcut := none, idx := 1 }

/-- A store with one task and one tag (the task is untagged). -/
def dbTagged : DB :=
  { tasks := [plainTodo], areas := [], tags := [homeTag], taskTags := [], checklistItems := [] }

/-- C8: the documented presence/absence sentinels True and False for the
tag filter are rejected by get_tasks's validation (a bool is never an
element of [None] plus the tag titles), an unknown concrete tag title is
a hard ValueError as claimed, and a known title passes validation and
returns a result rather than an error. -/
theorem c8_tag_validation :
    getTasksRows trueEnv dbTagged none { tag := .fbool true } =
      .error (.invalidArg "tag" "True") ∧
    getTasksRows trueEnv dbTagged none { tag := .fbool false } =
      .error (.invalidArg "tag" "False") ∧
    getTasksRows trueEnv dbTagged none { tag := .fstr "Errands" } =
      .error (.invalidArg "tag" "Errands") ∧
    getTasksRows trueEnv dbTagged none { tag := .fstr "Home" } = .ok [] :=
  ⟨rfl, rfl, rfl, rfl⟩

/-- The parameter names of Database.get_tasks's signature, in source
order. -/
def get_tasks_parameters : List String :=
  ["uuid", "type", "status", "start", "area", "project", "heading", "tag",
   "start_date", "deadline", "trashed", "last", "search_query", "index", "count_only"]

/-- The column aliases of make_tasks_sql_query's SELECT list — the keys
of every task dict the library returns. -/
def task_row_keys : List String :=
  ["uuid", "type", "trashed", "title", "status", "area", "area_title", "project",
   "project_title", "heading", "heading_title", "notes", "tags", "start", "checklist",
   "start_date", "deadline", "stop_date", "created", "modified", "index", "today_index"]

/-- C9: due() forwards the keyword due_date=True to get_tasks, whose
parameter list has no due_date (the deadline filter is the parameter
named deadline), so every call raises TypeError before any filtering;
and the sort key "due_date" is likewise absent from the task dicts,
whose deadline column alias is "deadline". -/
theorem c9_due_keyword_mismatch :
    "due_date" ∉ get_tasks_parameters ∧
    "deadline" ∈ get_tasks_parameters ∧
    "due_date" ∉ task_row_keys ∧
    "deadline" ∈ task_row_keys :=
  ⟨by decide, by decide, by decide, by decide⟩

/-- C6: shaping a fetched project row with items expanded attaches exactly
the stable descending type-key sort of the recursively fetched child
sequence `pre` (which arrives in the project's index order): in the
attached items every child that is not a heading precedes every child
that is a heading, and for each type key the children of that type keep
exactly their pre-sort relative order (stability). -/
theorem c6_project_children_sorted (env : DateEnv) (db : DB) (fuel : Nat) (r : OutRow)
    (pre : List ShapedTask)
    (hr : r.type_ = some "project")
    (hpre : apiTasksList env db (fuel + 1) (projectChildFilters r.uuid) = .ok pre)
    (hk : ∀ s ∈ pre, ((ShapedTask.row s).type_).isSome = true) :
    (∃ tg, shapeOne env db (fuel + 1) true r =
        .ok (.mk r tg none (some (List.insertionSort childSortRel pre)))) ∧
    (List.insertionSort childSortRel pre).Pairwise
      (fun a b => (ShapedTask.row a).type_ = some "heading" →
        (ShapedTask.row b).type_ = some "heading") ∧
    (∀ ty : String,
      (List.insertionSort childSortRel pre).filter (fun s => itemTypeKey s == ty) =
        pre.filter (fun s => itemTypeKey s == ty)) := by
  rw [apiTasksList] at hpre
  cases hrows : getTasksRows env db none (projectChildFilters r.uuid) with
  | error e => rw [hrows] at hpre; cases hpre
  | ok rows =>
    rw [hrows] at hpre
    have hpre' : mapOrErr (shapeOne env db fuel true) rows = .ok pre := hpre
    have hnonone : (pre.any (fun s => (ShapedTask.row s).type_.isNone)) = false := by
      rw [List.any_eq_false]
      intro s hs h2
      have h1 := hk s hs
      rw [Option.isNone_iff_eq_none] at h2
      rw [h2] at h1
      cases h1
    have hsort : sortItemsPy pre = .ok (List.insertionSort childSortRel pre) := by
      unfold sortItemsPy
      rw [if_neg]
      intro hcond
      rw [hnonone] at hcond
      exact absurd hcond.2 (by simp)
    refine ⟨⟨if r.tags == some true then some (get_tags_of_task db r.uuid) else none, ?_⟩, ?_, ?_⟩
    · rw [shapeOne]
      have h1 : (r.type_ == some "to-do") = false := by rw [hr]; rfl
      have h2 : (r.type_ == some "project") = true := by rw [hr]; rfl
      simp only [h1, h2, Bool.not_true, Bool.false_eq_true, if_false, if_true]
      split
      · rename_i e heq
        rw [hrows] at heq
        cases heq
      · rename_i rows2 heq
        rw [hrows] at heq
        injection heq with heq2
        subst heq2
        split
        · rename_i e heq3
          rw [hpre'] at heq3
          cases heq3
        · rename_i pre2 heq3
          rw [hpre'] at heq3
          injection heq3 with heq4
          subst heq4
          split
          · rename_i e heq5
            rw [hsort] at heq5
            cases heq5
          · rename_i sorted heq5
            rw [hsort] at heq5
            injection heq5 with heq6
            subst heq6
            rfl
    · have hsorted : (List.insertionSort childSortRel pre).Pairwise childSortRel :=
        List.sorted_insertionSort childSortRel pre
      have hkeys : ∀ s ∈ pre, (ShapedTask.row s).type_ = some "to-do" ∨
          (ShapedTask.row s).type_ = some "project" ∨
          (ShapedTask.row s).type_ = some "heading" := by
        intro s hs
        obtain ⟨x, hx, hgx⟩ := mapOrErr_ok_mem _ rows pre hpre' s hs
        have hrow : ShapedTask.row s = x := shapeOne_row env db fuel true x s hgx
        have hxr := getTasksRows_type_range env db none _ rows hrows x hx
        have hksome := hk s hs
        rw [hrow]
        rcases hxr with h | h | h | h
        · rw [hrow, h] at hksome; cases hksome
        · exact Or.inl h
        · exact Or.inr (Or.inl h)
        · exact Or.inr (Or.inr h)
      refine List.Pairwise.imp_of_mem ?_ hsorted
      intro a b ha hb hab hah
      rw [List.mem_insertionSort] at ha hb
      have hkb := hkeys b hb
      have hkeyA : itemTypeKey a = "heading" := by
        unfold itemTypeKey
        rw [hah]
        rfl
      rcases hkb with h | h | h
      · exfalso
        have hkeyB : itemTypeKey b = "to-do" := by unfold itemTypeKey; rw [h]; rfl
        unfold childSortRel at hab
        rw [hkeyB, hkeyA] at hab
        exact absurd hab (by decide)
      · exfalso
        have hkeyB : itemTypeKey b = "project" := by unfold itemTypeKey; rw [h]; rfl
        unfold childSortRel at hab
        rw [hkeyB, hkeyA] at hab
        exact absurd hab (by decide)
      · exact h
    · intro ty
      exact filter_insertionSort_key pre ty

/-- A project. -/
def projP : TaskRow := { plainTodo with uuid := "P", taskType := 1, title := "trip" }

/-- A heading of project P, at index 2. -/
def headH : TaskRow :=
  { plainTodo with uuid := "H", taskType := 2, project := some "P", title := "packing", idx := 2 }

/-- A to-do of project P, at index 3 (after the heading). -/
def todoT : TaskRow :=
  { plainTodo with uuid := "T2", project := some "P", title := "tickets", idx := 3 }

/-- A store with the project P, its heading H and its to-do T2. -/
def dbProject : DB :=
  { tasks := [projP, headH, todoT], areas := [], tags := [], taskTags := [], checklistItems := [] }

/-- The heading H as the recursive fetch shapes it (no child to-dos). -/
def shapedH : ShapedTask := .mk (rowOf dbProject headH) none none (some [])

/-- The to-do T2 as the recursive fetch shapes it. -/
def shapedT : ShapedTask := .mk (rowOf dbProject todoT) none none none

/-- C6 witness: the theorem applied to project "P" whose fetched children
arrive as [heading H, to-do T2] in index order; the shaped project's
items are the sorted sequence, non-headings precede headings, and the
per-type subsequences are unchanged. -/
theorem c6_project_children_sorted_witness :
    (∃ tg, shapeOne trueEnv dbProject 2 true (rowOf dbProject projP) =
        .ok (.mk (rowOf dbProject projP) tg none
          (some (List.insertionSort childSortRel [shapedH, shapedT])))) ∧
    (List.insertionSort childSortRel [shapedH, shapedT]).Pairwise
      (fun a b => (ShapedTask.row a).type_ = some "heading" →
        (ShapedTask.row b).type_ = some "heading") ∧
    (List.insertionSort childSortRel [shapedH, shapedT]).filter
        (fun s => itemTypeKey s == "to-do") =
      [shapedH, shapedT].filter (fun s => itemTypeKey s == "to-do") := by
  have h := c6_project_children_sorted trueEnv dbProject 1 (rowOf dbProject projP)
    [shapedH, shapedT] rfl rfl (by decide)
  exact ⟨h.1, h.2.1, h.2.2 "to-do"⟩
